import Mathlib

/-!
Verification of the Element Classification & Aggregation pipeline of
`dataset_processor.py` (Dataset_Builder).

Shallow embedding conventions:
* A native element produced by the external partitioning engine is modelled by
  what the code inspects on it: whether touching it raises (the per-element
  try/except), its `text` attribute (absent or `None` is `none`), its `str()`
  rendering, its `isinstance` membership in each of the seven known
  `unstructured` classes, its `__class__.__name__`, and the best-effort
  dictionary conversions of its metadata and coordinates (a failed or absent
  conversion is `none`, matching the inner `except` blocks).
* Filesystem facts about an input path (`os.path.exists`, `os.path.basename`,
  `Path(...).suffix.lower()`, `os.path.getsize`) and the outcome of
  `partition(file_path)` are external-collaborator results, so they are carried
  as fields of the input; a `partition` call that raises is `Except.error`.
* Python `str.strip()` is `pyStrip`, Python `str.split()` (no argument:
  whitespace runs, no empty tokens) is `pySplit`.
* Chat messages are side effects only and are not modelled.
-/

set_option autoImplicit false

namespace DatasetProcessor

/-- Python `str.strip()`: drop leading and trailing whitespace characters. -/
def pyStrip (s : String) : String :=
  String.mk (((s.toList.dropWhile Char.isWhitespace).reverse.dropWhile
    Char.isWhitespace).reverse)

/-- Split a character list on runs of whitespace, discarding empty chunks;
`cur` holds the current in-progress word, reversed. -/
def pySplitAux (cur : List Char) : List Char → List (List Char)
  | [] => if cur.isEmpty then [] else [cur.reverse]
  | c :: cs =>
    if Char.isWhitespace c then
      if cur.isEmpty then pySplitAux [] cs
      else cur.reverse :: pySplitAux [] cs
    else pySplitAux (c :: cur) cs

/-- Python `str.split()` with no argument: split on runs of whitespace,
discarding empty tokens. -/
def pySplit (s : String) : List String :=
  (pySplitAux [] s.toList).map String.mk

/-- Python `str.lower()`, character by character. -/
def pyLower (s : String) : String :=
  String.mk (s.toList.map Char.toLower)

/-- Python `str.upper()`, character by character. -/
def pyUpper (s : String) : String :=
  String.mk (s.toList.map Char.toUpper)

/-- One native element as returned by `partition`, described by exactly the
capabilities the code inspects on it. -/
structure NativeElement where
  /-- Processing this element raises an exception that reaches the per-element
  `except` handler (e.g. a raising `text` property or `str()`); the inner
  metadata/coordinate conversions have their own handlers and never reach it. -/
  raises : Bool
  /-- `element.text` when the attribute exists and is not `None`, already
  converted by `str(...)` but not yet stripped. -/
  textAttr : Option String
  /-- `str(element)`, used as fallback when `textAttr` is absent. -/
  strRepr : String
  isTitle : Bool
  isNarrativeText : Bool
  isListItem : Bool
  isTable : Bool
  isHeader : Bool
  isFooter : Bool
  isText : Bool
  /-- `element.__class__.__name__`. -/
  className : String
  /-- Result of the best-effort metadata-to-dict conversion; `none` when the
  attribute is absent, `None`, or the conversion raised (inner handler). -/
  metadataDict : Option (List (String × String))
  /-- Result of the best-effort coordinates-to-dict conversion. -/
  coordinatesDict : Option (List (String × String))
deriving DecidableEq, Repr

/-- One stored record of `structured_data` (lines 180-186 of the source). -/
structure ElementRecord where
  type : String
  text : String
  metadata : List (String × String)
  coordinates : Option (List (String × String))
  element_index : Nat
deriving DecidableEq, Repr

/-- Text extraction, lines 120-124: prefer a present, non-`None` `text`
attribute, else fall back to `str(element)`; both are stripped. -/
def extractText (e : NativeElement) : String :=
  match e.textAttr with
  | some t => pyStrip t
  | none => pyStrip e.strRepr

/-- Kind determination, lines 130-149: `isinstance` checks in source order,
with the lower-cased class name as the final fallback. -/
def classifyType (e : NativeElement) : String :=
  if e.isTitle then "title"
  else if e.isNarrativeText then "narrative"
  else if e.isListItem then "list_item"
  else if e.isTable then "table"
  else if e.isHeader then "header"
  else if e.isFooter then "footer"
  else if e.isText then "text"
  else pyLower e.className

/-- Outcome of one iteration of the element loop body for one element. -/
inductive ElementOutcome where
  /-- The record was appended to `structured_data`. -/
  | retained (rec : ElementRecord)
  /-- `continue` at line 128: no meaningful text; neither stored nor counted. -/
  | dropped
  /-- The per-element `except` handler ran; `skipped_count` is incremented. -/
  | skipped
deriving DecidableEq, Repr

/-- The body of the per-element loop (lines 117-203) for element `e` at
enumeration index `i`. -/
def classifyOne (i : Nat) (e : NativeElement) : ElementOutcome :=
  if e.raises then ElementOutcome.skipped
  else
    let text := extractText e
    if text.length < 2 then ElementOutcome.dropped
    else ElementOutcome.retained
      { type := classifyType e
        text := text
        metadata := e.metadataDict.getD []
        coordinates := e.coordinatesDict
        element_index := i }

/-- The mutable accumulators of the element loop (lines 112-115). -/
structure ClassifyState where
  structured_data : List ElementRecord
  word_count : Nat
  processed_count : Nat
  skipped_count : Nat
deriving DecidableEq, Repr

/-- Effect of one loop iteration on the accumulators (lines 180-203). -/
def classifyStep (s : ClassifyState) (i : Nat) (e : NativeElement) :
    ClassifyState :=
  match classifyOne i e with
  | ElementOutcome.retained rec =>
      { s with
        structured_data := s.structured_data ++ [rec]
        word_count := s.word_count + (pySplit rec.text).length
        processed_count := s.processed_count + 1 }
  | ElementOutcome.dropped => s
  | ElementOutcome.skipped => { s with skipped_count := s.skipped_count + 1 }

/-- The element loop `for i, element in enumerate(elements)` as a tail
recursion over the remaining elements, carrying the running accumulators and
the enumeration index. -/
def classifyLoop (s : ClassifyState) (i : Nat) :
    List NativeElement → ClassifyState
  | [] => s
  | e :: es => classifyLoop (classifyStep s i e) (i + 1) es

/-- Running the element loop from the initial accumulators (lines 112-115). -/
def classifyElements (es : List NativeElement) : ClassifyState :=
  classifyLoop ⟨[], 0, 0, 0⟩ 0 es

/-- One input document together with the external facts the code observes
about it (filesystem metadata and the outcome of `partition`). -/
structure FileInput where
  path : String
  /-- `os.path.exists(path)`. -/
  pathExists : Bool
  /-- `os.path.basename(path)`. -/
  basename : String
  /-- `Path(path).suffix.lower()`. -/
  suffixLower : String
  /-- `os.path.getsize(path)`. -/
  fileSize : Nat
  /-- `partition(path)`: its native element sequence, or the raised error. -/
  partitionResult : Except String (List NativeElement)
deriving Repr

/-- The dictionary returned at lines 215-227. -/
structure FileResult where
  success : Bool
  filename : String
  file_path : String
  file_size : Nat
  word_count : Nat
  elements : List ElementRecord
  element_count : Nat
  file_type : String
  total_elements_found : Nat
  processed_count : Nat
  skipped_count : Nat
deriving DecidableEq, Repr

/-- `process_single_file_from_path` (lines 96-241): on a successful
`partition` it runs the element loop and returns the result dictionary with
`success=True`; when `partition` raises, the outer `except` handler prints
diagnostics and re-raises (`raise e`, line 241), so the exception propagates
to the caller. -/
def process_single_file_from_path (f : FileInput) :
    Except String FileResult :=
  match f.partitionResult with
  | Except.error e => Except.error e
  | Except.ok elements =>
      let st := classifyElements elements
      Except.ok
        { success := true
          filename := f.basename
          file_path := f.path
          file_size := f.fileSize
          word_count := st.word_count
          elements := st.structured_data
          element_count := st.structured_data.length
          file_type := f.suffixLower
          total_elements_found := elements.length
          processed_count := st.processed_count
          skipped_count := st.skipped_count }

/-- The per-file loop of `process_files_from_paths` (lines 60-73): each file is
processed inside `try`; a successful result is appended, an exception is
caught and the loop continues with the next file. -/
def runBatch : List FileInput → List FileResult
  | [] => []
  | f :: fs =>
    match process_single_file_from_path f with
    | Except.ok r => r :: runBatch fs
    | Except.error _ => runBatch fs

/-- `process_files_from_paths` (lines 34-94) acting on the global
`processed_results` store: an empty path list returns early (line 41); paths
failing `os.path.exists` are rejected individually; if no valid path remains
the function returns early (line 53); otherwise the batch runs and its results
replace the store wholesale (line 76). The returned value is the store after
the call. -/
def process_files_from_paths (store : List FileResult)
    (file_paths : List FileInput) : List FileResult :=
  if file_paths.isEmpty then store
  else
    let valid_paths := file_paths.filter (fun f => f.pathExists)
    if valid_paths.isEmpty then store
    else runBatch valid_paths

/-- `clear_session_data` (lines 340-345): reset the store to empty. -/
def clear_session_data (_store : List FileResult) : List FileResult := []

/-- Header line of the CSV export (line 304). -/
def csvHeader : String := "filename,element_count,word_count,file_size,file_type"

/-- One CSV data row (line 307): per-file summary fields only. -/
def csvRow (r : FileResult) : String :=
  r.filename ++ "," ++ toString r.element_count ++ "," ++
    toString r.word_count ++ "," ++ toString r.file_size ++ "," ++ r.file_type

/-- The CSV body loop (lines 305-307): one row per result with
`success=True`, in store order. -/
def csvBody : List FileResult → List String
  | [] => []
  | r :: rs => if r.success then csvRow r :: csvBody rs else csvBody rs

/-- One element block of the text report (lines 321-322). -/
def textReportForElement (rec : ElementRecord) : String :=
  "[" ++ pyUpper rec.type ++ "]\n" ++ rec.text ++ "\n\n"

/-- Separator line of the text report (`'='*50`). -/
def textReportRule : String := String.mk (List.replicate 50 '=')

/-- The per-file block of the text report (lines 312-322); files with
`success=False` are not rendered. -/
def textReportForFile (r : FileResult) : String :=
  if r.success then
    "\n" ++ textReportRule ++ "\n" ++ "FILE: " ++ r.filename ++ "\n" ++
      "ELEMENTS: " ++ toString r.element_count ++ "\n" ++
      "WORDS: " ++ toString r.word_count ++ "\n" ++ textReportRule ++ "\n\n" ++
      String.join (r.elements.map textReportForElement)
  else ""

/-- Error message of the empty-store export guard (line 288). -/
def exportErrMsg : String :=
  "No processed data to export. Please process some files first."

/-- The three artifacts one `export` run writes into the `exports` directory
(lines 292-322), with their paths and contents. -/
structure ExportArtifacts where
  directory : String
  jsonFile : String
  /-- Content of `processed_data.json`: the whole store, losslessly. -/
  jsonData : List FileResult
  csvFile : String
  /-- Lines of `processed_data.csv`: header then one row per successful file. -/
  csvLines : List String
  textFile : String
  /-- Content of `extracted_text.txt`. -/
  textData : String
deriving DecidableEq, Repr

/-- `export_processed_data` (lines 282-338): an empty store fails the guard at
line 287 and writes nothing; otherwise the three artifacts are written. -/
def export_processed_data (store : List FileResult) :
    Except String ExportArtifacts :=
  if store.isEmpty then Except.error exportErrMsg
  else Except.ok
    { directory := "exports"
      jsonFile := "exports/processed_data.json"
      jsonData := store
      csvFile := "exports/processed_data.csv"
      csvLines := csvHeader :: csvBody store
      textFile := "exports/extracted_text.txt"
      textData := String.join (store.map textReportForFile) }

/-! ### Concrete sample inputs used by counterexamples and witnesses -/

/-- A well-formed `Title` element (in `unstructured`, `Title` is also an
instance of `Text`). -/
def exElemTitle : NativeElement :=
  { raises := false, textAttr := some "Hello World", strRepr := "Hello World",
    isTitle := true, isNarrativeText := false, isListItem := false,
    isTable := false, isHeader := false, isFooter := false, isText := true,
    className := "Title", metadataDict := some [("page_number", "1")],
    coordinatesDict := none }

/-- A well-formed `NarrativeText` element whose `text` attribute carries
surrounding whitespace. -/
def exElemNarr : NativeElement :=
  { raises := false, textAttr := some " A short sample sentence. ",
    strRepr := "A short sample sentence.",
    isTitle := false, isNarrativeText := true, isListItem := false,
    isTable := false, isHeader := false, isFooter := false, isText := true,
    className := "NarrativeText", metadataDict := none,
    coordinatesDict := none }

/-- An element whose stripped text is shorter than 2 characters: dropped. -/
def exElemNoise : NativeElement :=
  { raises := false, textAttr := some " . ", strRepr := " . ",
    isTitle := false, isNarrativeText := false, isListItem := false,
    isTable := false, isHeader := false, isFooter := false, isText := true,
    className := "Text", metadataDict := none, coordinatesDict := none }

/-- An element whose processing raises: counted as skipped. -/
def exElemRaises : NativeElement :=
  { raises := true, textAttr := none, strRepr := "broken",
    isTitle := false, isNarrativeText := false, isListItem := false,
    isTable := false, isHeader := false, isFooter := false, isText := false,
    className := "CheckBox", metadataDict := none, coordinatesDict := none }

/-- An element outside the `isinstance` table whose class is literally named
`Unknown`. -/
def exElemUnknownName : NativeElement :=
  { raises := false, textAttr := some "Some content here", strRepr := "Some content here",
    isTitle := false, isNarrativeText := false, isListItem := false,
    isTable := false, isHeader := false, isFooter := false, isText := false,
    className := "Unknown", metadataDict := none, coordinatesDict := none }

/-- An existing file whose `partition` call succeeds with two elements. -/
def exGood : FileInput :=
  { path := "/docs/good.pdf", pathExists := true, basename := "good.pdf",
    suffixLower := ".pdf", fileSize := 2048,
    partitionResult := Except.ok [exElemTitle, exElemNarr] }

/-- An existing file whose `partition` call raises. -/
def exBad : FileInput :=
  { path := "/docs/bad.pdf", pathExists := true, basename := "bad.pdf",
    suffixLower := ".pdf", fileSize := 512,
    partitionResult := Except.error "File is corrupted" }

/-- An existing file with a noise element, a raising element and a good one. -/
def exNoisy : FileInput :=
  { path := "/docs/noisy.docx", pathExists := true, basename := "noisy.docx",
    suffixLower := ".docx", fileSize := 4096,
    partitionResult :=
      Except.ok [exElemTitle, exElemNoise, exElemRaises, exElemNarr] }

/-- A path that fails `os.path.exists`. -/
def exMissing : FileInput :=
  { path := "/docs/missing.pdf", pathExists := false, basename := "missing.pdf",
    suffixLower := ".pdf", fileSize := 0,
    partitionResult := Except.ok [] }

/-- The `FileResult` produced for `exGood`. -/
def exGoodResult : FileResult :=
  { success := true, filename := "good.pdf", file_path := "/docs/good.pdf",
    file_size := 2048, word_count := 6,
    elements :=
      [{ type := "title", text := "Hello World",
         metadata := [("page_number", "1")], coordinates := none,
         element_index := 0 },
       { type := "narrative", text := "A short sample sentence.",
         metadata := [], coordinates := none, element_index := 1 }],
    element_count := 2, file_type := ".pdf", total_elements_found := 2,
    processed_count := 2, skipped_count := 0 }

/-- The `FileResult` produced for `exNoisy`. -/
def exNoisyResult : FileResult :=
  { success := true, filename := "noisy.docx", file_path := "/docs/noisy.docx",
    file_size := 4096, word_count := 6,
    elements :=
      [{ type := "title", text := "Hello World",
         metadata := [("page_number", "1")], coordinates := none,
         element_index := 0 },
       { type := "narrative", text := "A short sample sentence.",
         metadata := [], coordinates := none, element_index := 3 }],
    element_count := 2, file_type := ".docx", total_elements_found := 4,
    processed_count := 2, skipped_count := 1 }

/-- The first stored record of `exGoodResult`. -/
def exRecTitle : ElementRecord :=
  { type := "title", text := "Hello World", metadata := [("page_number", "1")],
    coordinates := none, element_index := 0 }

/-- The second stored record of `exNoisyResult`: its position index is 3, the
original enumeration index, although only one record precedes it. -/
def exRecNarr3 : ElementRecord :=
  { type := "narrative", text := "A short sample sentence.", metadata := [],
    coordinates := none, element_index := 3 }

/-! ### Characterization of the element loop -/

/-- Right-recursive characterization of the element loop starting at
enumeration index `i` with fresh accumulators. -/
def classifyFrom (i : Nat) : List NativeElement → ClassifyState
  | [] => ⟨[], 0, 0, 0⟩
  | e :: es =>
    let rest := classifyFrom (i + 1) es
    match classifyOne i e with
    | ElementOutcome.retained rec =>
        { structured_data := rec :: rest.structured_data
          word_count := (pySplit rec.text).length + rest.word_count
          processed_count := rest.processed_count + 1
          skipped_count := rest.skipped_count }
    | ElementOutcome.dropped => rest
    | ElementOutcome.skipped =>
        { rest with skipped_count := rest.skipped_count + 1 }

theorem classifyLoop_eq (es : List NativeElement) :
    ∀ (s : ClassifyState) (i : Nat),
    classifyLoop s i es =
      { structured_data := s.structured_data ++ (classifyFrom i es).structured_data
        word_count := s.word_count + (classifyFrom i es).word_count
        processed_count := s.processed_count + (classifyFrom i es).processed_count
        skipped_count := s.skipped_count + (classifyFrom i es).skipped_count } := by
  induction es with
  | nil => intro s i; simp [classifyLoop, classifyFrom]
  | cons e es ih =>
    intro s i
    rw [classifyLoop, ih]
    cases h : classifyOne i e with
    | retained rec =>
      simp only [classifyStep, h, classifyFrom, ClassifyState.mk.injEq]
      and_intros <;> first | rfl | simp | omega
    | dropped =>
      simp only [classifyStep, h, classifyFrom]
    | skipped =>
      simp only [classifyStep, h, classifyFrom, ClassifyState.mk.injEq]
      and_intros <;> first | rfl | simp | omega

theorem classifyElements_eq (es : List NativeElement) :
    classifyElements es = classifyFrom 0 es := by
  rw [classifyElements, classifyLoop_eq]
  simp

theorem classifyOne_retained (i : Nat) (e : NativeElement) (rec : ElementRecord)
    (h : classifyOne i e = ElementOutcome.retained rec) :
    e.raises = false ∧ rec.text = extractText e ∧ 2 ≤ rec.text.length ∧
      rec.element_index = i ∧ rec.type = classifyType e := by
  unfold classifyOne at h
  by_cases h1 : e.raises = true
  · rw [if_pos h1] at h
    simp at h
  · rw [if_neg h1] at h
    by_cases h2 : (extractText e).length < 2
    · rw [if_pos h2] at h
      simp at h
    · rw [if_neg h2] at h
      have he := ElementOutcome.retained.inj h
      subst he
      refine ⟨by simpa using h1, rfl, ?_, rfl, rfl⟩
      show 2 ≤ (extractText e).length
      omega

theorem classifyFrom_word_count (i : Nat) (es : List NativeElement) :
    (classifyFrom i es).word_count =
      ((classifyFrom i es).structured_data.map
        (fun rec => (pySplit rec.text).length)).sum := by
  induction es generalizing i with
  | nil => rfl
  | cons e es ih =>
    rw [classifyFrom]
    cases h : classifyOne i e with
    | retained rec => simp [h, ih (i + 1)]
    | dropped => simpa using ih (i + 1)
    | skipped => simpa using ih (i + 1)

theorem classifyFrom_counts_le (i : Nat) (es : List NativeElement) :
    (classifyFrom i es).processed_count + (classifyFrom i es).skipped_count ≤
      es.length := by
  induction es generalizing i with
  | nil => simp [classifyFrom]
  | cons e es ih =>
    rw [classifyFrom]
    cases h : classifyOne i e with
    | retained rec =>
      have := ih (i + 1)
      simp only [h, List.length_cons]
      omega
    | dropped =>
      have := ih (i + 1)
      simp only [h, List.length_cons]
      omega
    | skipped =>
      have := ih (i + 1)
      simp only [h, List.length_cons]
      omega

theorem classifyFrom_mem (es : List NativeElement) (i : Nat)
    (rec : ElementRecord)
    (h : rec ∈ (classifyFrom i es).structured_data) :
    ∃ j, ∃ hj : j < es.length, rec.element_index = i + j ∧
      classifyOne rec.element_index (es.get ⟨j, hj⟩) =
        ElementOutcome.retained rec := by
  induction es generalizing i with
  | nil => simp [classifyFrom] at h
  | cons e es ih =>
    rw [classifyFrom] at h
    cases hc : classifyOne i e with
    | retained rec0 =>
      simp only [hc, List.mem_cons] at h
      rcases h with rfl | h
      · have hfacts := classifyOne_retained i e rec hc
        refine ⟨0, by simp, by omega, ?_⟩
        rw [hfacts.2.2.2.1]
        exact hc
      · obtain ⟨j, hj, hidx, hcl⟩ := ih (i + 1) h
        exact ⟨j + 1, by simpa using hj, by omega, hcl⟩
    | dropped =>
      simp only [hc] at h
      obtain ⟨j, hj, hidx, hcl⟩ := ih (i + 1) h
      exact ⟨j + 1, by simpa using hj, by omega, hcl⟩
    | skipped =>
      simp only [hc] at h
      obtain ⟨j, hj, hidx, hcl⟩ := ih (i + 1) h
      exact ⟨j + 1, by simpa using hj, by omega, hcl⟩

theorem dropWhile_eq_cons_head_false {α : Type} (p : α → Bool) :
    ∀ (l : List α) (x : α) (xs : List α),
    l.dropWhile p = x :: xs → p x = false := by
  intro l
  induction l with
  | nil => intro x xs h; simp [List.dropWhile] at h
  | cons a l ih =>
    intro x xs h
    rw [List.dropWhile_cons] at h
    by_cases ha : p a
    · rw [if_pos ha] at h
      exact ih x xs h
    · rw [if_neg ha] at h
      cases h
      simpa using ha

theorem pyStrip_not_all_whitespace (s : String)
    (h : (pyStrip s).length ≠ 0) :
    (pyStrip s).toList.all Char.isWhitespace = false := by
  show (((s.toList.dropWhile Char.isWhitespace).reverse.dropWhile
    Char.isWhitespace).reverse).all Char.isWhitespace = false
  cases hd : (s.toList.dropWhile Char.isWhitespace).reverse.dropWhile
      Char.isWhitespace with
  | nil =>
    exfalso
    apply h
    show (((s.toList.dropWhile Char.isWhitespace).reverse.dropWhile
      Char.isWhitespace).reverse).length = 0
    rw [hd]
    rfl
  | cons x xs =>
    have hx : Char.isWhitespace x = false :=
      dropWhile_eq_cons_head_false Char.isWhitespace _ x xs hd
    cases hall : ((x :: xs).reverse).all Char.isWhitespace with
    | false => rfl
    | true =>
      exfalso
      have hmem : x ∈ (x :: xs).reverse := by simp
      have := List.all_eq_true.mp hall x hmem
      rw [hx] at this
      exact Bool.false_ne_true this

theorem extractText_is_stripped (e : NativeElement) :
    ∃ s, extractText e = pyStrip s := by
  unfold extractText
  cases e.textAttr with
  | some t => exact ⟨t, rfl⟩
  | none => exact ⟨e.strRepr, rfl⟩

theorem runBatch_append (fs gs : List FileInput) :
    runBatch (fs ++ gs) = runBatch fs ++ runBatch gs := by
  induction fs with
  | nil => simp [runBatch]
  | cons f fs ih =>
    simp only [List.cons_append, runBatch]
    cases h : process_single_file_from_path f <;> simp [ih]

theorem runBatch_filterMap (fs : List FileInput) :
    runBatch fs =
      fs.filterMap (fun f => (process_single_file_from_path f).toOption) := by
  induction fs with
  | nil => rfl
  | cons f fs ih =>
    simp only [runBatch, List.filterMap_cons]
    cases h : process_single_file_from_path f <;>
      simp [Except.toOption, h, ih]

theorem csvBody_eq_filter_map (store : List FileResult) :
    csvBody store = (store.filter (fun r => r.success)).map csvRow := by
  induction store with
  | nil => rfl
  | cons r rs ih =>
    by_cases h : r.success <;> simp [csvBody, List.filter_cons, h, ih]

/-! ### Claims -/

/-- Claim C1, counterexample: `exBad` is a document whose partition call
throws, yet the file aggregation produces no `FileResult` at all — the
exception propagates and the batch `[exBad, exGood]` ends up holding a single
result, the one for `exGood`, with no `success = false` entry anywhere. This
refutes the claim that a failed partition yields a `success=false` FileResult
appended to the BatchResult. -/
theorem c1_no_failed_file_result_counterexample :
    process_single_file_from_path exBad = Except.error "File is corrupted" ∧
    runBatch [exBad, exGood] = [exGoodResult] ∧
    (¬ ∃ r ∈ runBatch [exBad, exGood], r.success = false) :=
  ⟨rfl, rfl, by decide⟩

/-- Claim C1, amended: for every document whose partition call throws,
`process_single_file_from_path` re-raises the exception, the batch loop
catches it and appends nothing, so the failed document contributes no
FileResult and the remaining documents process exactly as they would alone. -/
theorem c1_partition_failure_isolated (f : FileInput) (fs : List FileInput)
    (msg : String) (h : f.partitionResult = Except.error msg) :
    process_single_file_from_path f = Except.error msg ∧
      runBatch (f :: fs) = runBatch fs := by
  have h1 : process_single_file_from_path f = Except.error msg := by
    unfold process_single_file_from_path
    rw [h]
  exact ⟨h1, by simp [runBatch, h1]⟩

/-- Witness for `c1_partition_failure_isolated` at `exBad`. -/
theorem c1_partition_failure_isolated_witness :
    process_single_file_from_path exBad = Except.error "File is corrupted" ∧
      runBatch [exBad, exGood] = runBatch [exGood] :=
  c1_partition_failure_isolated exBad [exGood] "File is corrupted" rfl

/-- Claim C2, counterexample: the flattened CSV export has one data row per
successful file, not one per retained ElementRecord: for a store holding one
successful FileResult with two retained records, there is exactly one data
row, and it carries the per-file summary columns (filename, element count,
word count, file size, file type) — no element kind, no element text, no
500-character truncation. -/
theorem c2_flattened_rows_counterexample :
    (csvBody [exGoodResult]).length = 1 ∧
    exGoodResult.elements.length = 2 ∧
    csvBody [exGoodResult] = ["good.pdf,2,6,2048,.pdf"] := by decide

/-- Claim C2, amended: the flattened CSV export contains a header line and
then exactly one data row per FileResult with `success = true`, in FileResult
order, each row rendering that file's filename, element count, word count,
file size and file type. -/
theorem c2_csv_one_row_per_file (store : List FileResult) (h : store ≠ []) :
    ∃ a, export_processed_data store = Except.ok a ∧
      a.csvLines = csvHeader ::
        (store.filter (fun r => r.success)).map csvRow := by
  have hne : store.isEmpty = false := by
    cases store with
    | nil => exact absurd rfl h
    | cons r rs => rfl
  simp only [export_processed_data, hne, Bool.false_eq_true, if_false]
  exact ⟨_, rfl, by simp [csvBody_eq_filter_map]⟩

/-- Witness for `c2_csv_one_row_per_file` at a one-file store. -/
theorem c2_csv_one_row_per_file_witness :
    ∃ a, export_processed_data [exGoodResult] = Except.ok a ∧
      a.csvLines = csvHeader ::
        ([exGoodResult].filter (fun r => r.success)).map csvRow :=
  c2_csv_one_row_per_file [exGoodResult] (by decide)

/-- Claim C3, counterexample: with the two valid sources `[exBad, exGood]`,
where the first one's partition throws, the BatchResult has only one
FileResult and its 0-th entry corresponds to the 1-st valid source
(`good.pdf`), not the 0-th (`bad.pdf`): a failure removes the failed file's
entry and shifts later results forward, refuting the positional
correspondence claim. -/
theorem c3_batch_shift_counterexample :
    [exBad, exGood].length = 2 ∧
    (runBatch [exBad, exGood]).length = 1 ∧
    (runBatch [exBad, exGood]).map (fun r => r.filename) = ["good.pdf"] ∧
    exBad.basename = "bad.pdf" := by decide

/-- Claim C3, amended: iteration never stops or reorders — the batch of a
concatenation is the concatenation of the batches — and the i-th FileResult
corresponds to the i-th valid source whose processing succeeded: the
BatchResult is exactly the in-order image of the sources whose
`process_single_file_from_path` returned a result, failures contributing
nothing (and thereby shifting later entries forward). -/
theorem c3_batch_order (fs gs : List FileInput) :
    runBatch (fs ++ gs) = runBatch fs ++ runBatch gs ∧
    runBatch fs =
      fs.filterMap (fun f => (process_single_file_from_path f).toOption) :=
  ⟨runBatch_append fs gs, runBatch_filterMap fs⟩

/-- Claim C4: for every FileResult produced by processing a document, its
word count equals the sum over all retained ElementRecords of the number of
whitespace-delimited tokens in that record's text. -/
theorem c4_word_count_eq (f : FileInput) (r : FileResult)
    (h : process_single_file_from_path f = Except.ok r) :
    r.word_count =
      (r.elements.map (fun rec => (pySplit rec.text).length)).sum := by
  cases hp : f.partitionResult with
  | error msg => simp [process_single_file_from_path, hp] at h
  | ok es =>
    simp only [process_single_file_from_path, hp] at h
    have h2 := Except.ok.inj h
    subst h2
    show (classifyElements es).word_count =
      ((classifyElements es).structured_data.map
        (fun rec => (pySplit rec.text).length)).sum
    rw [classifyElements_eq]
    exact classifyFrom_word_count 0 es

/-- Witness for `c4_word_count_eq` at `exGood`. -/
theorem c4_word_count_eq_witness :
    exGoodResult.word_count =
      (exGoodResult.elements.map (fun rec => (pySplit rec.text).length)).sum :=
  c4_word_count_eq exGood exGoodResult rfl

/-- Claim C5: for every FileResult, the retained element count plus the
skipped count is at most the total number of native elements the partitioning
engine returned for that file. -/
theorem c5_counts_le_total (f : FileInput) (r : FileResult)
    (h : process_single_file_from_path f = Except.ok r) :
    r.processed_count + r.skipped_count ≤ r.total_elements_found := by
  cases hp : f.partitionResult with
  | error msg => simp [process_single_file_from_path, hp] at h
  | ok es =>
    simp only [process_single_file_from_path, hp] at h
    have h2 := Except.ok.inj h
    subst h2
    show (classifyElements es).processed_count +
      (classifyElements es).skipped_count ≤ es.length
    rw [classifyElements_eq]
    exact classifyFrom_counts_le 0 es

/-- Witness for `c5_counts_le_total` at `exNoisy`, where the inequality is
strict (1 retained + 1 skipped, 1 dropped for short text, of 4 found). -/
theorem c5_counts_le_total_witness :
    exNoisyResult.processed_count + exNoisyResult.skipped_count ≤
      exNoisyResult.total_elements_found :=
  c5_counts_le_total exNoisy exNoisyResult rfl

/-- Claim C6: every ElementRecord stored in any FileResult has text of length
at least 2 that is not whitespace-only (the stored text is the stripped
extraction), and a non-raising native element whose extracted stripped text is
shorter than 2 characters is dropped — its loop outcome is `dropped`, which
stores nothing and does not increment the skipped count. -/
theorem c6_stored_text_nonempty (f : FileInput) (r : FileResult)
    (h : process_single_file_from_path f = Except.ok r) :
    (∀ rec ∈ r.elements, 2 ≤ rec.text.length ∧
      rec.text.toList.all Char.isWhitespace = false) ∧
    (∀ (i : Nat) (e : NativeElement), e.raises = false →
      (extractText e).length < 2 →
      classifyOne i e = ElementOutcome.dropped) := by
  constructor
  · intro rec hrec
    cases hp : f.partitionResult with
    | error msg => simp [process_single_file_from_path, hp] at h
    | ok es =>
      simp only [process_single_file_from_path, hp] at h
      have h2 := Except.ok.inj h
      subst h2
      have hrec2 : rec ∈ (classifyElements es).structured_data := hrec
      rw [classifyElements_eq] at hrec2
      obtain ⟨j, hj, hidx, hcl⟩ := classifyFrom_mem es 0 rec hrec2
      obtain ⟨_, htext, hlen, _, _⟩ :=
        classifyOne_retained rec.element_index _ rec hcl
      refine ⟨hlen, ?_⟩
      obtain ⟨s, hs⟩ := extractText_is_stripped (es.get ⟨j, hj⟩)
      rw [htext, hs]
      apply pyStrip_not_all_whitespace
      rw [← hs, ← htext]
      omega
  · intro i e hr hlen
    unfold classifyOne
    simp [hr, hlen]

/-- Witness for `c6_stored_text_nonempty` at the title record of `exGood`. -/
theorem c6_stored_text_nonempty_witness :
    2 ≤ exRecTitle.text.length ∧
      exRecTitle.text.toList.all Char.isWhitespace = false :=
  (c6_stored_text_nonempty exGood exGoodResult rfl).1 exRecTitle (by decide)

/-- Claim C7, counterexample: `exElemUnknownName` carries full inspectable
type information — its class name is the literal string `Unknown` — and is
outside the `isinstance` table, yet it classifies to `unknown`: the
lower-cased fallback produces `unknown` for it, refuting that `unknown` is
reserved for elements with no inspectable type information and that uncovered
types always yield their lower-cased name rather than `unknown`. -/
theorem c7_unknown_kind_counterexample :
    classifyType exElemUnknownName = "unknown" ∧
    exElemUnknownName.className = "Unknown" ∧
    exElemUnknownName.raises = false ∧
    exElemUnknownName.textAttr = some "Some content here" := by decide

/-- Claim C7, amended: the kind is the fixed table image of the first
matching `isinstance` check, and otherwise the lower-cased class name; the
string `unknown` appears exactly when the element matches no table entry and
its own class name lower-cases to `unknown` — there is no separate
no-type-information branch producing it. -/
theorem c7_kind_mapping (e : NativeElement) :
    (classifyType e = "title" ∨ classifyType e = "narrative" ∨
     classifyType e = "list_item" ∨ classifyType e = "table" ∨
     classifyType e = "header" ∨ classifyType e = "footer" ∨
     classifyType e = "text" ∨ classifyType e = pyLower e.className) ∧
    (classifyType e = "unknown" ↔
      (e.isTitle = false ∧ e.isNarrativeText = false ∧ e.isListItem = false ∧
       e.isTable = false ∧ e.isHeader = false ∧ e.isFooter = false ∧
       e.isText = false ∧ pyLower e.className = "unknown")) := by
  unfold classifyType
  split_ifs with h1 h2 h3 h4 h5 h6 h7 <;> simp_all

/-- Claim C8: export on the store left by `clear` fails with the
nothing-to-export error; export on any empty store fails the same way and
produces no artifacts; export on a non-empty store writes its artifacts into
the `exports` directory. -/
theorem c8_export_preconditions (store : List FileResult) :
    export_processed_data (clear_session_data store) =
      Except.error exportErrMsg ∧
    (store = [] → export_processed_data store = Except.error exportErrMsg) ∧
    (store ≠ [] → ∃ a, export_processed_data store = Except.ok a ∧
      a.directory = "exports") := by
  refine ⟨rfl, ?_, ?_⟩
  · intro h
    subst h
    rfl
  · intro h
    have hne : store.isEmpty = false := by
      cases store with
      | nil => exact absurd rfl h
      | cons r rs => rfl
    simp only [export_processed_data, hne, Bool.false_eq_true, if_false]
    exact ⟨_, rfl, rfl⟩

/-- Witness for `c8_export_preconditions` on the empty and a one-file store. -/
theorem c8_export_preconditions_witness :
    export_processed_data [] = Except.error exportErrMsg ∧
    (∃ a, export_processed_data [exGoodResult] = Except.ok a ∧
      a.directory = "exports") :=
  ⟨(c8_export_preconditions []).2.1 rfl,
   (c8_export_preconditions [exGoodResult]).2.2 (by decide)⟩

/-- Claim C9: every retained ElementRecord's position index is the 0-based
index of the native element it came from in the original partition sequence:
indexing the raw element list at the stored position index and re-running the
loop body there reproduces exactly this record. -/
theorem c9_position_index (f : FileInput) (es : List NativeElement)
    (r : FileResult) (hp : f.partitionResult = Except.ok es)
    (h : process_single_file_from_path f = Except.ok r) :
    ∀ rec ∈ r.elements, ∃ hlt : rec.element_index < es.length,
      classifyOne rec.element_index (es.get ⟨rec.element_index, hlt⟩) =
        ElementOutcome.retained rec := by
  intro rec hrec
  simp only [process_single_file_from_path, hp] at h
  have h2 := Except.ok.inj h
  subst h2
  have hrec2 : rec ∈ (classifyElements es).structured_data := hrec
  rw [classifyElements_eq] at hrec2
  obtain ⟨j, hj, hidx, hcl⟩ := classifyFrom_mem es 0 rec hrec2
  have hij : rec.element_index = j := by omega
  rw [hij] at hcl ⊢
  exact ⟨hj, hcl⟩

/-- Witness for `c9_position_index`: in `exNoisy`, the narrative record keeps
position index 3 (its original enumeration index) even though the two
elements before it were dropped and skipped. -/
theorem c9_position_index_witness :
    classifyOne exRecNarr3.element_index
      ([exElemTitle, exElemNoise, exElemRaises, exElemNarr].get
        ⟨exRecNarr3.element_index, by decide⟩) =
      ElementOutcome.retained exRecNarr3 := by
  obtain ⟨hlt, hcl⟩ := c9_position_index exNoisy
    [exElemTitle, exElemNoise, exElemRaises, exElemNarr] exNoisyResult rfl rfl
    exRecNarr3 (by decide)
  exact hcl

/-- Claim C10: when the supplied path list is empty or every path fails the
existence check, `process_files_from_paths` returns before the
store-replacement step and the previously stored results are unchanged. -/
theorem c10_store_unchanged (store : List FileResult)
    (paths : List FileInput)
    (h : paths.filter (fun f => f.pathExists) = []) :
    process_files_from_paths store paths = store := by
  by_cases hp : paths.isEmpty = true
  · simp [process_files_from_paths, hp]
  · simp [process_files_from_paths, hp, h]

/-- Witness for `c10_store_unchanged`: a batch over one missing path leaves a
previously stored result untouched. -/
theorem c10_store_unchanged_witness :
    process_files_from_paths [exGoodResult] [exMissing] = [exGoodResult] :=
  c10_store_unchanged [exGoodResult] [exMissing] rfl

end DatasetProcessor
